import Mathlib

/-!
Shallow embedding of the OpenMaiWaifu native desktop-introspection layer
(src-tauri/src/screen.rs, window.rs, hittest.rs, lib.rs).

Platform calls (CoreGraphics, Cocoa, Win32, x_win, mouse_position, Tauri
emit) are modelled as explicit inputs to the embedded functions; the
functions themselves follow the Rust source line by line.
-/

/-! Numeric casts matching Rust semantics. -/

/-- Bit-cast of an i32 value to u32, as Rust `as u32` on i32 (two's
complement reinterpretation). -/
def i32ToU32 (v : Int) : Nat := (v % 4294967296).toNat

/-- Truncation of a real (f64, modelled as a rational) toward zero. -/
def truncQ (q : ℚ) : Int := if 0 ≤ q then Rat.floor q else Rat.ceil q

/-- Rust `as u32` on an f64: truncate toward zero, saturate into [0, 2^32). -/
def ratToU32 (q : ℚ) : Nat := if q ≤ 0 then 0 else min (Rat.floor q).toNat 4294967295

/-- Rust `as i32` on an f64: truncate toward zero, saturate into i32 range. -/
def ratToI32 (q : ℚ) : Int := max (-2147483648) (min 2147483647 (truncQ q))

/-! Data model: screen.rs `WindowInfo`, window.rs `ScreenSize`,
`MonitorInfo`, `DockInfo`, hittest.rs `MousePosition`. -/

/-- screen.rs `WindowInfo`: one desktop window record. -/
structure WindowInfo where
  app_name : String
  title : String
  x : Int
  y : Int
  width : Int
  height : Int
  window_id : Nat
deriving DecidableEq

/-- window.rs `ScreenSize`. -/
structure ScreenSize where
  width : Nat
  height : Nat
deriving DecidableEq

/-- window.rs `MonitorInfo`. Scale factor is an f64, modelled as ℚ. -/
structure MonitorInfo where
  x : Int
  y : Int
  width : Nat
  height : Nat
  scale_factor : ℚ
  is_primary : Bool
deriving DecidableEq

/-- window.rs `DockInfo`. -/
structure DockInfo where
  height : Nat
  position : String
  is_hidden : Bool
deriving DecidableEq

/-- hittest.rs `MousePosition` (window-relative logical pixels). -/
structure MousePosition where
  x : Int
  y : Int
deriving DecidableEq

/-! macOS CoreGraphics window enumeration (screen.rs, get_window_list_cg).
Each CFDictionary of the CFArray is modelled as a record of the values the
code extracts; a `none` field models a missing key, a non-CFNumber /
non-CFString value, or a failed conversion (`cf_number_to_i32` /
`cf_string_to_rust` returning None). A `none` array element models a null
dictionary pointer. -/

/-- Bounds sub-dictionary of a CG window entry (keys X, Y, Width, Height),
each value as read by `cf_number_to_i32`. -/
structure CGBounds where
  x : Option Int
  y : Option Int
  w : Option Int
  h : Option Int
deriving DecidableEq

/-- One element of the CFArray returned by CGWindowListCopyWindowInfo, with
the six values read by get_window_list_cg. -/
structure CGWindowDict where
  layer : Option Int
  pid : Option Int
  owner : Option String
  name : Option String
  bounds : Option CGBounds
  windowNumber : Option Int
deriving DecidableEq

/-- Loop body of get_window_list_cg (screen.rs lines 214-281) for one array
element: `none` results model `continue`. -/
def cgProcess (our_pid : Int) : Option CGWindowDict → Option WindowInfo
  | none => none
  | some d =>
    if d.layer.getD 0 ≠ 0 then none
    else if d.pid.getD 0 = our_pid then none
    else
      let owner := d.owner.getD ""
      let title := d.name.getD ""
      if title = "" ∧ owner = "" then none
      else
        match d.bounds with
        | none => none
        | some b =>
          if b.w.getD 0 < 50 ∨ b.h.getD 0 < 50 then none
          else some ⟨owner, title, b.x.getD 0, b.y.getD 0, b.w.getD 0, b.h.getD 0,
                     i32ToU32 (d.windowNumber.getD 0)⟩

/-- macOS path of get_window_list (screen.rs get_window_list_cg): the
CFArray contents and the process id are the platform inputs; a null CFArray
is modelled by the caller passing the empty list (code returns Vec::new()). -/
def get_window_list_cg (our_pid : Int) (dicts : List (Option CGWindowDict)) :
    List WindowInfo :=
  dicts.filterMap (cgProcess our_pid)

/-! Non-macOS window enumeration via x_win (screen.rs get_window_list_xwin,
get_active_window). -/

/-- Outcome of an x_win call wrapped in catch_unwind: Err(_) of
catch_unwind, Err(e) of x_win, or Ok. -/
inductive NativeResult (α : Type) where
  | panicked : NativeResult α
  | errored : NativeResult α
  | ok : α → NativeResult α
deriving DecidableEq

/-- One x_win window (fields read by the code: title, info.name, position,
id). -/
structure XWinWindow where
  title : String
  name : String
  x : Int
  y : Int
  width : Int
  height : Int
  id : Nat
deriving DecidableEq

/-- Mapping of an x_win window into a WindowInfo, as in screen.rs lines
328-336 and 361-369. -/
def toWindowInfo (w : XWinWindow) : WindowInfo :=
  ⟨w.name, w.title, w.x, w.y, w.width, w.height, w.id⟩

/-- Filter of get_window_list_xwin (screen.rs lines 322-327). -/
def xwinKeep (w : XWinWindow) : Bool :=
  w.title ≠ "" ∧ w.name ≠ "OpenMaiWaifu" ∧ 0 < w.width ∧ 0 < w.height

/-- Non-macOS path of get_window_list (screen.rs get_window_list_xwin). -/
def get_window_list_xwin (res : NativeResult (List XWinWindow)) : List WindowInfo :=
  match res with
  | .ok ws => (ws.filter xwinKeep).map toWindowInfo
  | .errored => []
  | .panicked => []

/-- screen.rs get_active_window (lines 355-380). -/
def get_active_window (res : NativeResult XWinWindow) : Option WindowInfo :=
  match res with
  | .ok w => if w.title = "" ∧ w.name = "" then none else some (toWindowInfo w)
  | .errored => none
  | .panicked => none

/-! Screen geometry resolver (window.rs). NSRect fields are CGFloat (f64),
modelled as ℚ; `none` for the main screen models `NSScreen::mainScreen ==
nil`. -/

/-- Cocoa NSRect: origin (x, y) and size (w, h), bottom-left origin on
macOS. -/
structure NSRect where
  x : ℚ
  y : ℚ
  w : ℚ
  h : ℚ
deriving DecidableEq

/-- macOS path of get_screen_size (window.rs lines 28-68): the main-screen
frame is the platform input; `none` models a nil mainScreen, which falls
through to the 1920x1080 fallback. -/
def get_screen_size_macos (mainFrame : Option NSRect) : ScreenSize :=
  match mainFrame with
  | some frame => ⟨ratToU32 frame.w, ratToU32 frame.h⟩
  | none => ⟨1920, 1080⟩

/-- Windows path of get_screen_size: GetSystemMetrics results (i32) are the
inputs; non-positive metrics fall through to the fallback. -/
def get_screen_size_windows (w h : Int) : ScreenSize :=
  if 0 < w ∧ 0 < h then ⟨i32ToU32 w, i32ToU32 h⟩ else ⟨1920, 1080⟩

/-- Other-platform path of get_screen_size: the fixed fallback. -/
def get_screen_size_other : ScreenSize := ⟨1920, 1080⟩

/-- macOS path of get_dock_info (window.rs lines 97-145): frame and
visibleFrame of the main screen are the inputs. Matches the Rust source:
bottom and left docks are detected by the visible frame origin exceeding
the full frame origin, a right dock by the leftover width difference. -/
def get_dock_info_macos (frame visible : NSRect) : DockInfo :=
  let dock_bottom := ratToU32 (visible.y - frame.y)
  let dock_left := ratToU32 (visible.x - frame.x)
  let dock_right := ratToU32 (frame.w - visible.w) - dock_left
  if 0 < dock_bottom then ⟨dock_bottom, "bottom", false⟩
  else if 0 < dock_left then ⟨dock_left, "left", false⟩
  else if 0 < dock_right then ⟨dock_right, "right", false⟩
  else ⟨0, "bottom", true⟩

/-- Win32 RECT. -/
structure WinRect where
  left : Int
  top : Int
  right : Int
  bottom : Int
deriving DecidableEq

/-- Data produced by the two SHAppBarMessage calls on the Windows path of
get_dock_info: the ABM_GETSTATE result and the APPBARDATA edge and rect
filled by ABM_GETTASKBARPOS. -/
structure WinTaskbar where
  state : Nat
  uEdge : Nat
  rc : WinRect
deriving DecidableEq

/-- Win32 ABE_LEFT edge constant. -/
def ABE_LEFT : Nat := 0
/-- Win32 ABE_TOP edge constant. -/
def ABE_TOP : Nat := 1
/-- Win32 ABE_RIGHT edge constant. -/
def ABE_RIGHT : Nat := 2
/-- Win32 ABE_BOTTOM edge constant. -/
def ABE_BOTTOM : Nat := 3
/-- Win32 ABS_AUTOHIDE state bit. -/
def ABS_AUTOHIDE : Nat := 1

/-- Windows path of get_dock_info (window.rs lines 148-181): `none` models
SHAppBarMessage(ABM_GETTASKBARPOS) returning 0, which falls through to the
fallback. -/
def get_dock_info_windows (tb : Option WinTaskbar) : DockInfo :=
  match tb with
  | none => ⟨0, "bottom", true⟩
  | some t =>
    let is_hidden := t.state &&& ABS_AUTOHIDE ≠ 0
    let ph : String × Nat :=
      if t.uEdge = ABE_BOTTOM then ("bottom", i32ToU32 (t.rc.bottom - t.rc.top))
      else if t.uEdge = ABE_TOP then ("top", i32ToU32 (t.rc.bottom - t.rc.top))
      else if t.uEdge = ABE_LEFT then ("left", i32ToU32 (t.rc.right - t.rc.left))
      else if t.uEdge = ABE_RIGHT then ("right", i32ToU32 (t.rc.right - t.rc.left))
      else ("bottom", 48)
    ⟨ph.2, ph.1, is_hidden⟩

/-- Other-platform path of get_dock_info: the fixed fallback (also reached
on macOS when mainScreen is nil). -/
def get_dock_info_fallback : DockInfo := ⟨0, "bottom", true⟩

/-- The synthetic fallback monitor of get_all_monitors (window.rs lines
284-291). -/
def fallbackMonitor : MonitorInfo := ⟨0, 0, 1920, 1080, 1, true⟩

/-- macOS path of get_all_monitors (window.rs lines 191-224): the NSScreen
array is the input, each screen as its frame and backingScaleFactor. The
first screen is marked primary; an empty array falls to the fallback. -/
def get_all_monitors_macos (screens : List (NSRect × ℚ)) : List MonitorInfo :=
  let monitors := screens.enum.map (fun p =>
    ⟨ratToI32 p.2.1.x, ratToI32 p.2.1.y, ratToU32 p.2.1.w, ratToU32 p.2.1.h,
     p.2.2, p.1 = 0⟩)
  if monitors.isEmpty then [fallbackMonitor] else monitors

/-- One monitor as collected by the Windows EnumDisplayMonitors callback:
rcMonitor, the MONITORINFOF_PRIMARY test on dwFlags, and the effective DPI
(96 when GetDpiForMonitor fails, window.rs lines 251-253). -/
structure WinMonitor where
  rc : WinRect
  dwFlags : Nat
  dpiX : Nat
deriving DecidableEq

/-- Windows path of get_all_monitors (window.rs lines 226-281): the
callback-collected list is the input; an empty list falls to the fallback. -/
def get_all_monitors_windows (mons : List WinMonitor) : List MonitorInfo :=
  let monitors := mons.map (fun m =>
    ⟨m.rc.left, m.rc.top, i32ToU32 (m.rc.right - m.rc.left),
     i32ToU32 (m.rc.bottom - m.rc.top), (m.dpiX : ℚ) / 96, m.dwFlags &&& 1 ≠ 0⟩)
  if monitors.isEmpty then [fallbackMonitor] else monitors

/-! Hit-test poller (hittest.rs start_mouse_polling, lines 49-112). The
loop is modelled as a step function over the mutable loop state; each
iteration consumes one `Tick` of platform inputs: the value the
running-flag load returns, the window geometry query results, the
Mouse::get_mouse_position outcome, and whether app.emit succeeds. -/

/-- Results of the per-refresh window queries (hittest.rs lines 66-74):
scale_factor() and outer_position(), each individually fallible. The
physical position is integer pixels (Tauri PhysicalPosition i32). -/
structure GeomSample where
  scale : Option ℚ
  pos : Option (Int × Int)
deriving DecidableEq

/-- One loop iteration's platform inputs. `geom = none` models
get_webview_window("main") returning None; `mouse = none` models
Mouse::Error; `emitOk` is whether app.emit("mouse-move", _) returns Ok. -/
structure Tick where
  flag : Bool
  geom : Option GeomSample
  mouse : Option (Int × Int)
  emitOk : Bool
deriving DecidableEq

/-- Mutable state of the polling loop (hittest.rs lines 56-61), plus a
`stopped` marker recording that the loop has exited (via the flag or the
consecutive-failure break). -/
structure PollST where
  winx : ℚ
  winy : ℚ
  scale : ℚ
  frame : Nat
  fails : Nat
  stopped : Bool
deriving DecidableEq

/-- Initial loop state (hittest.rs lines 56-60): cache at origin, scale 1,
frame and failure counters 0. -/
def pollInit : PollST := ⟨0, 0, 1, 0, 0, false⟩

/-- hittest.rs lines 65-75: every 60th frame, refresh the cached scale
factor and logical window position; each individually-failed query retains
the previous cached value. -/
def refreshCache (s : PollST) (geom : Option GeomSample) : PollST :=
  if s.frame % 60 = 0 then
    match geom with
    | none => s
    | some g =>
      let sc := g.scale.getD s.scale
      match g.pos with
      | some p => { s with scale := sc, winx := (p.1 : ℚ) / sc, winy := (p.2 : ℚ) / sc }
      | none => { s with scale := sc }
  else s

/-- hittest.rs MAX_CONSECUTIVE_FAILURES. -/
def MAX_CONSECUTIVE_FAILURES : Nat := 300

/-- Output of one loop iteration: the successor state, the MousePosition
events actually published (emit succeeded), and the consecutive-failure
counts at which a diagnostic line was printed. -/
structure StepOut where
  st : PollST
  pubs : List MousePosition
  logs : List Nat
deriving DecidableEq

/-- One iteration of the while loop (hittest.rs lines 63-108). A stopped
loop consumes nothing and produces nothing. Otherwise: the flag load at the
top of the iteration exits the loop when false; the cache is refreshed on
every 60th frame; the frame counter advances (u64, wrapping); a mouse
error skips the tick; a successful emit publishes the window-relative,
truncated position and zeroes the failure counter; a failed emit increments
it (u32), logs on the 1st and each 60th consecutive failure, and breaks the
loop at MAX_CONSECUTIVE_FAILURES. -/
def pollStep (s : PollST) (t : Tick) : StepOut :=
  if s.stopped then ⟨s, [], []⟩
  else if t.flag = false then ⟨{ s with stopped := true }, [], []⟩
  else
    let s1 := refreshCache s t.geom
    let s2 := { s1 with frame := (s1.frame + 1) % 18446744073709551616 }
    match t.mouse with
    | none => ⟨s2, [], []⟩
    | some m =>
      let relx : ℚ := (m.1 : ℚ) - s2.winx
      let rely : ℚ := (m.2 : ℚ) - s2.winy
      let pos : MousePosition := ⟨ratToI32 relx, ratToI32 rely⟩
      if t.emitOk then ⟨{ s2 with fails := 0 }, [pos], []⟩
      else
        let f := (s2.fails + 1) % 4294967296
        let logs := if f = 1 ∨ f % 60 = 0 then [f] else []
        if MAX_CONSECUTIVE_FAILURES ≤ f then
          ⟨{ s2 with fails := f, stopped := true }, [], logs⟩
        else
          ⟨{ s2 with fails := f }, [], logs⟩

/-- Run of the loop from a given state over a sequence of ticks,
accumulating published events and logged failure counts. -/
def pollRunFrom (s : PollST) : List Tick → StepOut
  | [] => ⟨s, [], []⟩
  | t :: ts =>
    let o := pollStep s t
    let r := pollRunFrom o.st ts
    ⟨r.st, o.pubs ++ r.pubs, o.logs ++ r.logs⟩

/-- Run of the loop from the initial state of start_mouse_polling. -/
def pollRun (ts : List Tick) : StepOut := pollRunFrom pollInit ts

/-- start_mouse_polling creates the shared running flag holding `true`
(hittest.rs line 50). -/
def poller_initial_flag : Bool := true

/-- The only write to the running flag outside the loop: the tray "quit"
handler stores `false` (lib.rs line 164,
`mouse_polling_running.store(false, ...)`). -/
def quit_store_value : Bool := false

/-! Helper lemmas shared by the claim theorems. -/

/-- Batteries Rat.floor agrees with the floor of the FloorRing instance. -/
theorem ratFloor_eq_floor (q : ℚ) : Rat.floor q = ⌊q⌋ := rfl

/-- Refreshing the geometry cache leaves the failure counter unchanged. -/
theorem refreshCache_fails (s : PollST) (g : Option GeomSample) :
    (refreshCache s g).fails = s.fails := by
  unfold refreshCache
  split
  · cases g with
    | none => rfl
    | some gs => cases hp : gs.pos <;> simp [hp]
  · rfl

/-- Refreshing the geometry cache leaves the stopped marker unchanged. -/
theorem refreshCache_stopped (s : PollST) (g : Option GeomSample) :
    (refreshCache s g).stopped = s.stopped := by
  unfold refreshCache
  split
  · cases g with
    | none => rfl
    | some gs => cases hp : gs.pos <;> simp [hp]
  · rfl

/-- A stopped loop consumes ticks without effect. -/
theorem pollStep_stopped (s : PollST) (t : Tick) (h : s.stopped = true) :
    pollStep s t = ⟨s, [], []⟩ := by
  unfold pollStep
  simp [h]

/-- A stopped loop publishes nothing over any further tick sequence. -/
theorem pollRunFrom_stopped (s : PollST) (ts : List Tick) (h : s.stopped = true) :
    pollRunFrom s ts = ⟨s, [], []⟩ := by
  induction ts with
  | nil => rfl
  | cons t ts ih =>
    unfold pollRunFrom
    rw [pollStep_stopped s t h]
    simp [ih]

/-- Claim C3 (counterexample): with the claim's literal rects — total frame
(0, 0, 1920, 1080) and work area (0, 0, 1920, 1030), same origin — the
embedded get_dock_info macOS path reports a hidden dock of height 0, not
the claimed height-50 bottom dock, because bottom-dock detection compares
the origins (macOS bottom-left coordinates), not the heights. -/
theorem get_dock_info_example_cex :
    get_dock_info_macos ⟨0, 0, 1920, 1080⟩ ⟨0, 0, 1920, 1030⟩ = ⟨0, "bottom", true⟩ ∧
    get_dock_info_macos ⟨0, 0, 1920, 1080⟩ ⟨0, 0, 1920, 1030⟩ ≠ ⟨50, "bottom", false⟩ := by
  constructor
  · norm_num [get_dock_info_macos, ratToU32, ratFloor_eq_floor]
  · norm_num [get_dock_info_macos, ratToU32, ratFloor_eq_floor]

/-- Claim C3 (amended): get_dock_info derives the dock from the difference
between total frame and work area in macOS bottom-left coordinates: with
total frame (0, 0, 1920, 1080) and work area (0, 50, 1920, 1030) — the
visible origin raised by the 50-pixel dock — it returns height 50, position
bottom, not hidden; with total frame equal to the work area it returns
height 0, position bottom, hidden. -/
theorem get_dock_info_derivation :
    get_dock_info_macos ⟨0, 0, 1920, 1080⟩ ⟨0, 50, 1920, 1030⟩ = ⟨50, "bottom", false⟩ ∧
    get_dock_info_macos ⟨0, 0, 1920, 1080⟩ ⟨0, 0, 1920, 1080⟩ = ⟨0, "bottom", true⟩ := by
  constructor
  · norm_num [get_dock_info_macos, ratToU32, ratFloor_eq_floor]
    decide
  · norm_num [get_dock_info_macos, ratToU32, ratFloor_eq_floor]

/-- Claim C6: when the native layer yields zero monitors, get_all_monitors
returns exactly one synthetic MonitorInfo (0, 0, 1920, 1080, scale 1,
primary), on the macOS path and on the Windows path alike. -/
theorem get_all_monitors_fallback :
    get_all_monitors_macos [] = [⟨0, 0, 1920, 1080, 1, true⟩] ∧
    get_all_monitors_windows [] = [⟨0, 0, 1920, 1080, 1, true⟩] :=
  ⟨rfl, rfl⟩

/-- Claim C9: get_screen_size always returns a ScreenSize (the embedded
functions are total) and returns exactly the 1920x1080 fallback whenever
the platform cannot report the primary display: nil mainScreen on macOS,
non-positive GetSystemMetrics values on Windows, and any other platform. -/
theorem get_screen_size_fallback (w h : Int) :
    get_screen_size_macos none = ⟨1920, 1080⟩ ∧
    (¬(0 < w ∧ 0 < h) → get_screen_size_windows w h = ⟨1920, 1080⟩) ∧
    get_screen_size_other = ⟨1920, 1080⟩ := by
  refine ⟨rfl, ?_, rfl⟩
  intro hwh
  simp [get_screen_size_windows, hwh]

/-- Witness for get_screen_size_fallback at metrics (0, -5). -/
theorem get_screen_size_fallback_witness :
    ¬((0 : Int) < 0 ∧ (0 : Int) < -5) ∧
    get_screen_size_windows 0 (-5) = ⟨1920, 1080⟩ :=
  ⟨by decide, (get_screen_size_fallback 0 (-5)).2.1 (by decide)⟩

/-- Claim C4 (counterexample): on the Windows path an auto-hidden taskbar
(ABS_AUTOHIDE state bit set, bottom edge, rect of thickness 40) yields
is_hidden = true together with height 40 ≠ 0, refuting the claim that
is_hidden implies height 0 on every platform path. -/
theorem dock_hidden_height_cex :
    (get_dock_info_windows (some ⟨1, 3, ⟨0, 1040, 1920, 1080⟩⟩)).is_hidden = true ∧
    (get_dock_info_windows (some ⟨1, 3, ⟨0, 1040, 1920, 1080⟩⟩)).height = 40 := by
  decide

/-- Claim C4 (amended): is_hidden = true implies height = 0 on the macOS
path, on the fallback path, and on the Windows path when
ABM_GETTASKBARPOS fails; on the Windows success path is_hidden is instead
the ABS_AUTOHIDE state bit, independent of the reported taskbar thickness,
so an auto-hidden taskbar carries its nonzero thickness as height. -/
theorem dock_hidden_height (frame visible : NSRect) (t : WinTaskbar) :
    ((get_dock_info_macos frame visible).is_hidden = true →
      (get_dock_info_macos frame visible).height = 0) ∧
    (get_dock_info_fallback.is_hidden = true ∧ get_dock_info_fallback.height = 0) ∧
    ((get_dock_info_windows none).is_hidden = true ∧
      (get_dock_info_windows none).height = 0) ∧
    ((get_dock_info_windows (some t)).is_hidden = decide (t.state &&& ABS_AUTOHIDE ≠ 0)) := by
  refine ⟨?_, ⟨rfl, rfl⟩, ⟨rfl, rfl⟩, rfl⟩
  simp only [get_dock_info_macos]
  split_ifs <;> simp

/-- Claim C8: get_active_window returns none exactly when the native query
panicked or errored or the focused window has both an empty title and an
empty app name; otherwise it returns the mapped record — no layer or size
filter is applied. -/
theorem get_active_window_none_iff (res : NativeResult XWinWindow) :
    (get_active_window res = none ↔
      res = .panicked ∨ res = .errored ∨
        ∃ w, res = .ok w ∧ w.title = "" ∧ w.name = "") ∧
    (∀ w, res = .ok w → ¬(w.title = "" ∧ w.name = "") →
      get_active_window res = some (toWindowInfo w)) := by
  constructor
  · cases res with
    | panicked => simp [get_active_window]
    | errored => simp [get_active_window]
    | ok w =>
      simp only [get_active_window]
      constructor
      · intro h
        refine Or.inr (Or.inr ⟨w, rfl, ?_⟩)
        by_cases hc : w.title = "" ∧ w.name = ""
        · exact hc
        · simp [hc] at h
      · rintro (h | h | ⟨w2, hw2, hc⟩)
        · cases h
        · cases h
        · cases hw2
          simp [hc]
  · intro w hw hc
    subst hw
    simp [get_active_window, hc]

/-- Witness for get_active_window_none_iff: a focused window with a
nonempty title is returned as its mapped record. -/
theorem get_active_window_none_iff_witness :
    get_active_window (.ok ⟨"doc", "Edit", 1, 2, 640, 480, 9⟩) =
      some (toWindowInfo ⟨"doc", "Edit", 1, 2, 640, 480, 9⟩) :=
  (get_active_window_none_iff (.ok ⟨"doc", "Edit", 1, 2, 640, 480, 9⟩)).2
    ⟨"doc", "Edit", 1, 2, 640, 480, 9⟩ rfl (by decide)

/-- Claim C1 (counterexample): on the x_win path, a 10x10 window with a
nonempty title passes the filter — only width > 0 and height > 0 are
required there — so list_windows can return a record with width < 50. -/
theorem list_windows_filter_cex :
    ∃ r ∈ get_window_list_xwin (.ok [⟨"a", "X", 3, 4, 10, 10, 7⟩]), r.width < 50 := by
  decide

/-- Claim C1 (amended): on the macOS CoreGraphics path every returned
record has width ≥ 50 and height ≥ 50 and not both names empty, and any
entry whose owner pid equals the caller's pid is dropped; on the x_win path
the filter instead guarantees a nonempty title (hence not both names
empty), app_name ≠ "OpenMaiWaifu", and only width > 0 and height > 0 — the
50-pixel minimum and the own-pid exclusion hold only on the macOS path. -/
theorem list_windows_filter (our_pid : Int) (dicts : List (Option CGWindowDict))
    (res : NativeResult (List XWinWindow)) :
    (∀ r ∈ get_window_list_cg our_pid dicts,
        50 ≤ r.width ∧ 50 ≤ r.height ∧ ¬(r.app_name = "" ∧ r.title = "")) ∧
    (∀ d : CGWindowDict, d.pid.getD 0 = our_pid →
        cgProcess our_pid (some d) = none) ∧
    (∀ r ∈ get_window_list_xwin res,
        r.title ≠ "" ∧ r.app_name ≠ "OpenMaiWaifu" ∧ 0 < r.width ∧ 0 < r.height) := by
  refine ⟨?_, ?_, ?_⟩
  · intro r hr
    simp only [get_window_list_cg, List.mem_filterMap] at hr
    obtain ⟨od, _, hod⟩ := hr
    cases od with
    | none => simp [cgProcess] at hod
    | some d =>
      simp only [cgProcess] at hod
      split at hod
      · cases hod
      · split at hod
        · cases hod
        · split at hod
          · cases hod
          · rename_i hnames
            split at hod
            · cases hod
            · split at hod
              · cases hod
              · rename_i hsize
                cases hod
                push_neg at hsize
                dsimp only
                exact ⟨by omega, by omega, fun hc => hnames ⟨hc.2, hc.1⟩⟩
  · intro d hpid
    simp [cgProcess, hpid]
  · intro r hr
    cases res with
    | panicked => simp [get_window_list_xwin] at hr
    | errored => simp [get_window_list_xwin] at hr
    | ok ws =>
      simp only [get_window_list_xwin, List.mem_map, List.mem_filter] at hr
      obtain ⟨w, ⟨_, hkeep⟩, hmap⟩ := hr
      subst hmap
      simp only [xwinKeep, decide_eq_true_eq] at hkeep
      exact ⟨hkeep.1, hkeep.2.1, hkeep.2.2.1, hkeep.2.2.2⟩

/-- Witness for list_windows_filter: a concrete CG entry surviving the
filter has width and height at least 50 and a nonempty identity, and an
entry carrying the caller's pid is dropped. -/
theorem list_windows_filter_witness :
    (50 ≤ (⟨"Term", "sh", 1, 2, 100, 80, 3⟩ : WindowInfo).width ∧
      50 ≤ (⟨"Term", "sh", 1, 2, 100, 80, 3⟩ : WindowInfo).height ∧
      ¬((⟨"Term", "sh", 1, 2, 100, 80, 3⟩ : WindowInfo).app_name = "" ∧
        (⟨"Term", "sh", 1, 2, 100, 80, 3⟩ : WindowInfo).title = "")) ∧
    cgProcess 7 (some ⟨some 0, some 7, some "Me", some "self",
      some ⟨some 0, some 0, some 500, some 400⟩, some 9⟩) = none :=
  ⟨(list_windows_filter 7
      [some ⟨some 0, some 42, some "Term", some "sh",
        some ⟨some 1, some 2, some 100, some 80⟩, some 3⟩] (.ok [])).1
      ⟨"Term", "sh", 1, 2, 100, 80, 3⟩ (by decide),
   (list_windows_filter 7 [] (.ok [])).2.1
      ⟨some 0, some 7, some "Me", some "self",
        some ⟨some 0, some 0, some 500, some 400⟩, some 9⟩ (by decide)⟩

/-- Claim C10: on the macOS enumeration path, a missing or unreadable
layer entry is treated as layer 0 (the entry behaves exactly as one with
layer 0, so it passes the layer filter); a missing or unreadable owner-pid
entry is treated as pid 0, so with a nonzero caller pid the entry is not
excluded as the caller's own window (it is returned whenever the remaining
filters pass); and a missing or unreadable window-number yields window_id 0
in the returned record. -/
theorem cg_missing_fields (p : Int) (d : CGWindowDict) :
    (d.layer = none →
      cgProcess p (some d) = cgProcess p (some { d with layer := some 0 })) ∧
    (d.pid = none → p ≠ 0 → d.layer.getD 0 = 0 →
      ¬(d.name.getD "" = "" ∧ d.owner.getD "" = "") →
      ∀ b, d.bounds = some b → 50 ≤ b.w.getD 0 → 50 ≤ b.h.getD 0 →
        cgProcess p (some d) =
          some ⟨d.owner.getD "", d.name.getD "", b.x.getD 0, b.y.getD 0,
                b.w.getD 0, b.h.getD 0, i32ToU32 (d.windowNumber.getD 0)⟩) ∧
    (d.windowNumber = none →
      ∀ r, cgProcess p (some d) = some r → r.window_id = 0) := by
  refine ⟨?_, ?_, ?_⟩
  · intro hl
    simp [cgProcess, hl]
  · intro hpid hp hl hnames b hb hw hh
    have h1 : ¬(d.layer.getD 0 ≠ 0) := by simp [hl]
    have h2 : ¬(d.pid.getD 0 = p) := by simp only [hpid, Option.getD_none]; omega
    have h4 : ¬(b.w.getD 0 < 50 ∨ b.h.getD 0 < 50) := by omega
    simp only [cgProcess, if_neg h1, if_neg h2, if_neg hnames, hb, if_neg h4]
  · intro hwn r hr
    simp only [cgProcess] at hr
    split at hr
    · cases hr
    · split at hr
      · cases hr
      · split at hr
        · cases hr
        · split at hr
          · cases hr
          · split at hr
            · cases hr
            · cases hr
              simp [hwn, i32ToU32]

/-- Witness for cg_missing_fields: an entry with layer, pid and window
number all missing, a nonempty owner and 100x80 bounds is returned by the
caller with pid 1, with window_id 0. -/
theorem cg_missing_fields_witness :
    cgProcess 1 (some ⟨none, none, some "App", some "Doc",
        some ⟨some 5, some 6, some 100, some 80⟩, none⟩) =
      some ⟨"App", "Doc", 5, 6, 100, 80, i32ToU32 0⟩ :=
  (cg_missing_fields 1 ⟨none, none, some "App", some "Doc",
      some ⟨some 5, some 6, some 100, some 80⟩, none⟩).2.1
    rfl (by decide) (by decide) (by decide)
    ⟨some 5, some 6, some 100, some 80⟩ rfl (by decide) (by decide)

/-- Claim C2: in the poll loop, a tick whose emit fails increments the
consecutive-failure counter by one and publishes nothing; a diagnostic is
logged exactly when the new count is 1 or a multiple of 60; the loop stops
exactly when the count reaches MAX_CONSECUTIVE_FAILURES (300), after which
it consumes ticks without any effect; and a successful emit resets the
counter to 0. The counter bound hypothesis holds for every reachable
non-stopped state, since the loop breaks at 300. -/
theorem poller_failure_escalation (s : PollST) (t : Tick) :
    (s.stopped = true → pollStep s t = ⟨s, [], []⟩) ∧
    (s.stopped = false → t.flag = true → s.fails < MAX_CONSECUTIVE_FAILURES →
      ∀ m, t.mouse = some m →
        (t.emitOk = true →
          (pollStep s t).st.fails = 0 ∧ (pollStep s t).st.stopped = false) ∧
        (t.emitOk = false →
          (pollStep s t).st.fails = s.fails + 1 ∧
          (pollStep s t).pubs = [] ∧
          ((pollStep s t).logs =
            if s.fails + 1 = 1 ∨ (s.fails + 1) % 60 = 0 then [s.fails + 1] else []) ∧
          ((pollStep s t).st.stopped = true ↔
            s.fails + 1 = MAX_CONSECUTIVE_FAILURES))) := by
  refine ⟨pollStep_stopped s t, ?_⟩
  intro hs hf hlt m hm
  have hmod : (s.fails + 1) % 4294967296 = s.fails + 1 := by
    apply Nat.mod_eq_of_lt
    simp only [MAX_CONSECUTIVE_FAILURES] at hlt
    omega
  constructor
  · intro he
    simp only [pollStep, hs, hf, hm, he]
    constructor
    · simp
    · simp [refreshCache_stopped, hs]
  · intro he
    simp only [pollStep, hs, hf, hm, he, refreshCache_fails, hmod]
    by_cases h300 : MAX_CONSECUTIVE_FAILURES ≤ s.fails + 1
    · have heq : s.fails + 1 = MAX_CONSECUTIVE_FAILURES := by
        simp only [MAX_CONSECUTIVE_FAILURES] at h300 hlt ⊢
        omega
      simp [h300, heq]
    · have hne : ¬(s.fails + 1 = MAX_CONSECUTIVE_FAILURES) := fun h => h300 h.ge
      simp [h300, hne, refreshCache_stopped, hs]

/-- Witness for poller_failure_escalation: from a live state with 299
consecutive failures, one more failing tick sets the counter to 300,
stops the loop, and logs (300 is a multiple of 60). -/
theorem poller_failure_escalation_witness :
    (pollStep ⟨0, 0, 1, 1, 299, false⟩ ⟨true, none, some (5, 5), false⟩).st.fails = 300 ∧
    (pollStep ⟨0, 0, 1, 1, 299, false⟩ ⟨true, none, some (5, 5), false⟩).st.stopped = true := by
  have h := ((poller_failure_escalation ⟨0, 0, 1, 1, 299, false⟩
      ⟨true, none, some (5, 5), false⟩).2
    rfl rfl (by norm_num [MAX_CONSECUTIVE_FAILURES]) (5, 5) rfl).2 rfl
  exact ⟨by rw [h.1], h.2.2.2.mpr (by norm_num [MAX_CONSECUTIVE_FAILURES])⟩

/-- Claim C5: a tick at which the cancellation flag reads false leaves the
loop stopped and publishes nothing, and no MousePosition is published over
any later tick sequence; the loop reads the flag at the top of every
iteration (every Tick carries the read value), and the only external write
to the flag — the tray quit handler — stores false, while
start_mouse_polling creates the flag holding true. -/
theorem poller_cancellation (s : PollST) (t : Tick) (ts : List Tick)
    (h : t.flag = false) :
    (pollStep s t).st.stopped = true ∧
    (pollStep s t).pubs = [] ∧
    (pollRunFrom (pollStep s t).st ts).pubs = [] ∧
    quit_store_value = false ∧ poller_initial_flag = true := by
  have hstop : (pollStep s t).st.stopped = true ∧ (pollStep s t).pubs = [] := by
    by_cases hs : s.stopped = true
    · rw [pollStep_stopped s t hs]
      exact ⟨hs, rfl⟩
    · have hs2 : s.stopped = false := by simpa using hs
      simp [pollStep, hs2, h]
  refine ⟨hstop.1, hstop.2, ?_, rfl, rfl⟩
  rw [pollRunFrom_stopped _ ts hstop.1]

/-- Witness for poller_cancellation: from the initial state, a tick with
the flag stored false stops the loop and nothing is published then or on a
later tick. -/
theorem poller_cancellation_witness :
    (pollStep pollInit ⟨false, none, some (3, 4), true⟩).st.stopped = true ∧
    (pollStep pollInit ⟨false, none, some (3, 4), true⟩).pubs = [] ∧
    (pollRunFrom (pollStep pollInit ⟨false, none, some (3, 4), true⟩).st
        [⟨true, none, some (1, 1), true⟩]).pubs = [] ∧
    quit_store_value = false ∧ poller_initial_flag = true :=
  poller_cancellation pollInit ⟨false, none, some (3, 4), true⟩
    [⟨true, none, some (1, 1), true⟩] rfl

/-- Claim C7: on every successfully published tick, the MousePosition is
the global cursor sample minus the cached window position (the cache as
refreshed this tick), truncated to integer. -/
theorem poller_relative_position (s : PollST) (t : Tick) (m : Int × Int)
    (hs : s.stopped = false) (hf : t.flag = true) (hm : t.mouse = some m)
    (he : t.emitOk = true) :
    (pollStep s t).pubs =
      [⟨ratToI32 ((m.1 : ℚ) - (refreshCache s t.geom).winx),
        ratToI32 ((m.2 : ℚ) - (refreshCache s t.geom).winy)⟩] := by
  simp [pollStep, hs, hf, hm, he]

/-- Witness for poller_relative_position: with cached window origin
(100, 100) and a cursor sample (150, 140), the published MousePosition is
(50, 40). -/
theorem poller_relative_position_witness :
    (pollStep ⟨100, 100, 1, 1, 0, false⟩ ⟨true, none, some (150, 140), true⟩).pubs
      = [⟨50, 40⟩] := by
  have h := poller_relative_position ⟨100, 100, 1, 1, 0, false⟩
    ⟨true, none, some (150, 140), true⟩ (150, 140) rfl rfl rfl rfl
  rw [h]
  norm_num [refreshCache, ratToI32, truncQ, ratFloor_eq_floor]

/-- Witness for dock_hidden_height: with total frame equal to the work
area the macOS path reports a hidden dock and its height is 0, and on the
Windows path a non-auto-hide taskbar reports is_hidden false. -/
theorem dock_hidden_height_witness :
    (get_dock_info_macos ⟨0, 0, 1920, 1080⟩ ⟨0, 0, 1920, 1080⟩).height = 0 ∧
    (get_dock_info_windows (some ⟨0, 3, ⟨0, 1040, 1920, 1080⟩⟩)).is_hidden =
      decide ((0 : Nat) &&& ABS_AUTOHIDE ≠ 0) :=
  ⟨(dock_hidden_height ⟨0, 0, 1920, 1080⟩ ⟨0, 0, 1920, 1080⟩
      ⟨0, 3, ⟨0, 1040, 1920, 1080⟩⟩).1
      (by norm_num [get_dock_info_macos, ratToU32, ratFloor_eq_floor]),
   (dock_hidden_height ⟨0, 0, 1920, 1080⟩ ⟨0, 0, 1920, 1080⟩
      ⟨0, 3, ⟨0, 1040, 1920, 1080⟩⟩).2.2.2⟩
